import Mathlib

/-!
Shallow embedding of the gpt-sharepoint-api repository:
  * `MainBkp`   embeds `src/main_bkp.py`  (FastAPI file-retrieval service)
  * `Discovery` embeds `src/get_site_drive_ids.py` (site/drive discovery CLI)

Network I/O is modelled by passing the outcome of each outbound HTTP call
explicitly; the handlers additionally record a trace of the outbound calls
they perform, so that sequencing and no-caching properties can be stated.
-/

namespace MainBkp

/-- Models Python `str.isspace()`: true exactly on the Unicode whitespace
characters that `str.strip()` removes (code points of category Zs, Zl or Zp
and those of bidirectional class WS, B or S): U+0009-U+000D, U+001C-U+001F,
U+0020, U+0085, U+00A0, U+1680, U+2000-U+200A, U+2028, U+2029, U+202F,
U+205F and U+3000. -/
def isPyWhitespace (c : Char) : Bool :=
  c = '\t' || c = '\n' || c = '\x0b' || c = '\x0c' || c = '\r' ||
  c = '\x1c' || c = '\x1d' || c = '\x1e' || c = '\x1f' || c = ' ' ||
  c = '\u0085' || c = '\u00A0' || c = '\u1680' ||
  ('\u2000' ≤ c && c ≤ '\u200A') ||
  c = '\u2028' || c = '\u2029' || c = '\u202F' || c = '\u205F' || c = '\u3000'

/-- Embeds Python `s.strip()` (used on the folder in
`download_file_by_path`): removes leading and trailing Unicode whitespace as
characterised by `isPyWhitespace`. -/
def pyStrip (s : String) : String :=
  ⟨((s.data.dropWhile isPyWhitespace).reverse.dropWhile isPyWhitespace).reverse⟩

/-- Embeds Python `s.replace(" ", "%20")` on the character list: every space
character (and only space characters) is replaced by the three characters
`%20`. -/
def encodeSpaces : List Char → List Char
  | [] => []
  | c :: cs => if c = ' ' then '%' :: '2' :: '0' :: encodeSpaces cs else c :: encodeSpaces cs

/-- Embeds `path.replace(" ", "%20")` from `download_file_by_path`
(main_bkp.py line 101). -/
def encode_path (p : String) : String := ⟨encodeSpaces p.data⟩

/-- Embeds line 100 of main_bkp.py:
`path = f"/{folder.strip()}/{file_name}" if folder else f"/{file_name}"`.
The folder is `Option String` because the pydantic field is `Optional[str]`,
so the handler may pass `None`; Python truthiness makes both `None` and `""`
take the no-folder branch. -/
def build_path (folder : Option String) (file_name : String) : String :=
  match folder with
  | none => "/" ++ file_name
  | some f => if f = "" then "/" ++ file_name else "/" ++ pyStrip f ++ "/" ++ file_name

/-- Embeds line 102 of main_bkp.py: the Graph content URL
`https://graph.microsoft.com/v1.0/drives/{DRIVE_ID}/root:{encoded_path}:/content`. -/
def graph_content_url (drive_id encoded_path : String) : String :=
  "https://graph.microsoft.com/v1.0/drives/" ++ drive_id ++ "/root:" ++ encoded_path ++ ":/content"

/-- Models a Python f-string interpolation of a value that may be `None`. -/
def pyToStr : Option String → String
  | none => "None"
  | some s => s

/-- A FastAPI `HTTPException`: a status code and a detail message. -/
structure HTTPException where
  status_code : Nat
  detail : String
deriving DecidableEq, Repr

/-- Outcome of the upstream Graph content fetch as `download_file_by_path`
distinguishes it: either `raise_for_status` raises an `httpx.HTTPStatusError`
carrying the upstream status code and its string rendering, or the fetch
succeeds and `resp.text` either decodes (`some text`) or raises
`UnicodeDecodeError` (`none`). -/
inductive ContentResult where
  | statusError (code : Nat) (detail : String)
  | success (text : Option String)

/-- Outcome of the token-endpoint POST as `acquire_access_token`
distinguishes it: either the request or `raise_for_status` raises an
`httpx.HTTPError` (carrying its string rendering), or the exchange succeeds
and the JSON body has `access_token` field `tok` (absent modelled as `none`;
note Python `if not access_token` also treats `""` as missing). -/
inductive TokenOutcome where
  | httpError (detail : String)
  | success (access_token : Option String)

/-- Trace events for the outbound calls a request performs. -/
inductive CallEvent where
  | tokenCall
  | fetchCall (access_token : String) (url : String)
deriving DecidableEq, Repr

/-- Embeds `acquire_access_token` (main_bkp.py lines 71-95): 502 with the
upstream detail on any `httpx.HTTPError`, 500 when the JSON response has no
(or an empty) `access_token`, otherwise the token. -/
def acquire_access_token (o : TokenOutcome) : Except HTTPException String :=
  match o with
  | .httpError d => .error ⟨502, "Failed to obtain access token: " ++ d⟩
  | .success tok =>
    match tok with
    | none => .error ⟨500, "Authentication service returned no access token"⟩
    | some t =>
      if t = "" then .error ⟨500, "Authentication service returned no access token"⟩
      else .ok t

/-- Embeds `download_file_by_path` (main_bkp.py lines 97-116). The fetch
behaviour of the network is a function of the access token presented; the
returned trace records the single GET issued, with the URL built from the
encoded path. -/
def download_file_by_path (drive_id : String) (folder : Option String)
    (file_name access_token : String) (fetch : String → ContentResult) :
    Except HTTPException String × List CallEvent :=
  let path := build_path folder file_name
  let encoded_path := encode_path path
  let url := graph_content_url drive_id encoded_path
  let result : Except HTTPException String :=
    match fetch access_token with
    | .statusError code detail =>
      if code = 404 then
        .error ⟨404, "Archivo \x27" ++ file_name ++ "\x27 no encontrado en \x27" ++
          pyToStr folder ++ "\x27"⟩
      else .error ⟨500, "Error al acceder a Graph: " ++ detail⟩
    | .success none => .error ⟨400, "El archivo no contiene datos de texto legibles."⟩
    | .success (some text) => .ok text
  (result, [CallEvent.fetchCall access_token url])

/-- The validated request body of `POST /get_file` (pydantic `FileRequest`,
main_bkp.py lines 118-121): `fileName : str` required, `folder :
Optional[str]` defaulting to `""`. -/
structure FileRequest where
  fileName : String
  folder : Option String
deriving DecidableEq, Repr

/-- A JSON field of the request body: absent, JSON null, or a string. -/
inductive JsonField where
  | absent
  | null
  | str (s : String)

/-- Embeds pydantic validation of the `FileRequest` body: `fileName` must be
present and a string (any string, including the empty one — the model
declares `fileName: str = Field(...)` with no minimum length); `folder`
defaults to `""` when absent and may be `null` since it is `Optional[str]`.
`none` is a validation rejection (FastAPI responds 422). -/
def validateFileRequest (fileName folder : JsonField) : Option FileRequest :=
  match fileName with
  | .absent => none
  | .null => none
  | .str s =>
    match folder with
    | .absent => some ⟨s, some ""⟩
    | .null => some ⟨s, none⟩
    | .str f => some ⟨s, some f⟩

/-- The per-request upstream world: the token endpoint's behaviour and the
Graph content endpoint's behaviour (as a function of the bearer token
presented). -/
structure ServiceEnv where
  tokenResp : TokenOutcome
  fetch : String → ContentResult

/-- Embeds the `get_file` handler (main_bkp.py lines 144-150): acquire a
token, then download by path with that token; an `HTTPException` from either
step becomes the response. The trace records the outbound calls in order. -/
def get_file (req : FileRequest) (drive_id : String) (env : ServiceEnv) :
    Except HTTPException String × List CallEvent :=
  match acquire_access_token env.tokenResp with
  | .error e => (.error e, [CallEvent.tokenCall])
  | .ok access_token =>
    let r := download_file_by_path drive_id req.folder req.fileName access_token env.fetch
    (r.1, CallEvent.tokenCall :: r.2)

/-- True exactly on token-acquisition events. -/
def isTokenCall : CallEvent → Bool
  | .tokenCall => true
  | .fetchCall _ _ => false

/-- The combined outbound-call trace of a sequence of independent requests,
each handled by `get_file` against its own upstream world. -/
def serveTrace (l : List (FileRequest × String × ServiceEnv)) : List CallEvent :=
  (l.map (fun x => (get_file x.1 x.2.1 x.2.2).2)).flatten

/-- Embeds `get_env_variable` (main_bkp.py lines 54-59): `os.getenv` misses
(`none`) or returns a falsy empty string — both raise
`RuntimeError("Missing required environment variable: {name}")`. -/
def get_env_variable (env : String → Option String) (name : String) : Except String String :=
  match env name with
  | none => .error ("Missing required environment variable: " ++ name)
  | some v =>
    if v = "" then .error ("Missing required environment variable: " ++ name)
    else .ok v

/-- The five configuration values fetched at module import
(main_bkp.py lines 62-66). -/
structure Config where
  tenant_id : String
  client_id : String
  client_secret : String
  site_id : String
  drive_id : String
deriving DecidableEq, Repr

/-- Embeds the module-level startup sequence of main_bkp.py lines 62-66: the
five `get_env_variable` calls evaluated in source order; the first failure
aborts startup with its error. -/
def loadConfig (env : String → Option String) : Except String Config :=
  match get_env_variable env "TENANT_ID" with
  | .error e => .error e
  | .ok tenant_id =>
    match get_env_variable env "CLIENT_ID" with
    | .error e => .error e
    | .ok client_id =>
      match get_env_variable env "CLIENT_SECRET" with
      | .error e => .error e
      | .ok client_secret =>
        match get_env_variable env "SITE_ID" with
        | .error e => .error e
        | .ok site_id =>
          match get_env_variable env "DRIVE_ID" with
          | .error e => .error e
          | .ok drive_id => .ok ⟨tenant_id, client_id, client_secret, site_id, drive_id⟩

end MainBkp

namespace Discovery

/-- Outcome of the token-endpoint POST in `acquire_token`
(get_site_drive_ids.py lines 37-60): either `raise_for_status` raises an
`requests.HTTPError` (with the upstream response text), or the exchange
succeeds and the JSON body has `access_token` field `tok` (absent modelled
as `none`; Python `if not token` also treats `""` as missing). -/
inductive TokenResp where
  | httpFail (text : String)
  | okJson (access_token : Option String)

/-- Outcome of the site GET in `get_site_id` (lines 63-91): an HTTP failure
(whose exception string propagates to main), or a JSON body whose `id` field
is `some`/`none` (`""` is falsy too). -/
inductive SiteResp where
  | httpFail (detail : String)
  | okJson (id : Option String)

/-- One entry of the drive-listing JSON `value` collection: only its `id`
field is consumed. -/
structure Drive where
  id : String
deriving DecidableEq, Repr

/-- Outcome of the drives GET in `get_default_drive_id` (lines 94-104): an
HTTP failure, or a JSON body whose `value` collection defaults to `[]`. -/
inductive DrivesResp where
  | httpFail (detail : String)
  | okJson (value : List Drive)

/-- Embeds `acquire_token` (get_site_drive_ids.py lines 37-60): RuntimeError
with the upstream body on HTTP failure, RuntimeError when the JSON has no
(or an empty) `access_token`, otherwise the token. -/
def acquire_token (r : TokenResp) : Except String String :=
  match r with
  | .httpFail t => .error ("Failed to obtain token: " ++ t)
  | .okJson tok =>
    match tok with
    | none => .error "Token endpoint returned no access_token"
    | some t => if t = "" then .error "Token endpoint returned no access_token" else .ok t

/-- Embeds `get_site_id` (lines 63-91): an HTTP failure propagates as an
exception (caught in `main` by `except Exception`); a success with no `id`
field raises RuntimeError; otherwise the site id. -/
def get_site_id (r : SiteResp) : Except String String :=
  match r with
  | .httpFail d => .error d
  | .okJson i =>
    match i with
    | none => .error "Failed to obtain site id from response"
    | some s => if s = "" then .error "Failed to obtain site id from response" else .ok s

/-- Embeds `get_default_drive_id` (lines 94-104): HTTP failure propagates;
an empty `value` collection raises RuntimeError; otherwise the id of the
first drive in the collection. -/
def get_default_drive_id (r : DrivesResp) : Except String String :=
  match r with
  | .httpFail d => .error d
  | .okJson ds =>
    match ds with
    | [] => .error "The specified site has no drives"
    | d :: _ => .ok d.id

/-- The three network stages of one `main` invocation. -/
inductive Stage where
  | tokenStage
  | siteStage
  | driveStage
deriving DecidableEq, Repr

/-- Observable behaviour of one `main` invocation: process exit status, the
lines printed to stdout and stderr, and which stages were attempted, in
order. -/
structure MainResult where
  exitCode : Nat
  stdout : List String
  stderr : List String
  attempted : List Stage
deriving DecidableEq, Repr

/-- Embeds `main` (get_site_drive_ids.py lines 140-158): acquire the token,
resolve the site id (the lookup depends on the bearer token through the
headers), resolve the drive id (depends on the site id); each stage failure
prints one stderr line with that stage's prefix and returns 1; on success the
two stdout lines `SITE_ID=...` and `DRIVE_ID=...` are printed and 0 returned. -/
def main (tokenR : TokenResp) (siteR : String → SiteResp) (drivesR : String → DrivesResp) :
    MainResult :=
  match acquire_token tokenR with
  | .error e => ⟨1, [], ["Error acquiring token: " ++ e], [Stage.tokenStage]⟩
  | .ok token =>
    match get_site_id (siteR token) with
    | .error e => ⟨1, [], ["Error obtaining site ID: " ++ e], [Stage.tokenStage, Stage.siteStage]⟩
    | .ok site_id =>
      match get_default_drive_id (drivesR site_id) with
      | .error e =>
        ⟨1, [], ["Error obtaining drive ID: " ++ e],
          [Stage.tokenStage, Stage.siteStage, Stage.driveStage]⟩
      | .ok drive_id =>
        ⟨0, ["SITE_ID=" ++ site_id, "DRIVE_ID=" ++ drive_id], [],
          [Stage.tokenStage, Stage.siteStage, Stage.driveStage]⟩

end Discovery

section Claims

open MainBkp Discovery

/-- C1 counterexample: for folder `" My Docs"` (non-empty, leading space) and
file `"a b.txt"`, the claim as stated demands the encoded remote path
`/%20My%20Docs/a%20b.txt` (each space of `/{f}/{n}` becoming `%20`), but the
code strips the folder first and sends `/My%20Docs/a%20b.txt`. -/
theorem c1_claim_counterexample :
    (MainBkp.download_file_by_path "D" (some " My Docs") "a b.txt" "tok"
        (fun _ => ContentResult.success (some "x"))).2 ≠
      [CallEvent.fetchCall "tok"
        "https://graph.microsoft.com/v1.0/drives/D/root:/%20My%20Docs/a%20b.txt:/content"] ∧
    (MainBkp.download_file_by_path "D" (some " My Docs") "a b.txt" "tok"
        (fun _ => ContentResult.success (some "x"))).2 =
      [CallEvent.fetchCall "tok"
        "https://graph.microsoft.com/v1.0/drives/D/root:/My%20Docs/a%20b.txt:/content"] := by
  constructor
  · decide
  · decide

/-- C1 amended: the remote path sent to Graph is `/{strip(f)}/{n}` when the
folder `f` is non-empty — the folder's leading and trailing whitespace is
stripped first — and `/{n}` when `f` is empty or absent; afterwards every
space character (and only space characters) in the path is replaced by
`%20`; e.g. folder `"My Docs"` and file `"a b.txt"` yield
`/My%20Docs/a%20b.txt`. -/
theorem c1_path_construction (drive f n tok : String)
    (fetch : String → ContentResult) (hf : f ≠ "") :
    (MainBkp.download_file_by_path drive (some f) n tok fetch).2 =
      [CallEvent.fetchCall tok
        (graph_content_url drive (encode_path ("/" ++ pyStrip f ++ "/" ++ n)))] ∧
    (MainBkp.download_file_by_path drive (some "") n tok fetch).2 =
      [CallEvent.fetchCall tok (graph_content_url drive (encode_path ("/" ++ n)))] ∧
    (MainBkp.download_file_by_path drive none n tok fetch).2 =
      [CallEvent.fetchCall tok (graph_content_url drive (encode_path ("/" ++ n)))] ∧
    encode_path ("/" ++ "My Docs" ++ "/" ++ "a b.txt") = "/My%20Docs/a%20b.txt" := by
  refine ⟨?_, ?_, ?_, by decide⟩
  · simp [download_file_by_path, build_path, hf]
  · simp [download_file_by_path, build_path]
  · simp [download_file_by_path, build_path]

/-- C1 witness: the amended path-construction theorem instantiated at
folder `"My Docs"`, file `"a b.txt"`. -/
theorem c1_path_construction_witness :
    (MainBkp.download_file_by_path "D" (some "My Docs") "a b.txt" "tok"
        (fun _ => ContentResult.success (some "x"))).2 =
      [CallEvent.fetchCall "tok"
        (graph_content_url "D" (encode_path ("/" ++ pyStrip "My Docs" ++ "/" ++ "a b.txt")))] :=
  (c1_path_construction "D" "My Docs" "a b.txt" "tok"
    (fun _ => ContentResult.success (some "x")) (by decide)).1

/-- C2: outcome mapping of the upstream content fetch in
`download_file_by_path` — upstream 404 becomes HTTP 404 with a message
naming the requested file and folder; any other upstream HTTP status error
becomes HTTP 500 carrying the upstream detail; an undecodable response body
becomes HTTP 400. -/
theorem c2_download_error_mapping (drive n tok d : String) (folder : Option String)
    (code : Nat) (hc : code ≠ 404) :
    (MainBkp.download_file_by_path drive folder n tok
        (fun _ => ContentResult.statusError 404 d)).1 =
      .error ⟨404, "Archivo \x27" ++ n ++ "\x27 no encontrado en \x27" ++
        pyToStr folder ++ "\x27"⟩ ∧
    (MainBkp.download_file_by_path drive folder n tok
        (fun _ => ContentResult.statusError code d)).1 =
      .error ⟨500, "Error al acceder a Graph: " ++ d⟩ ∧
    (MainBkp.download_file_by_path drive folder n tok
        (fun _ => ContentResult.success none)).1 =
      .error ⟨400, "El archivo no contiene datos de texto legibles."⟩ := by
  refine ⟨?_, ?_, ?_⟩
  · simp [download_file_by_path]
  · simp [download_file_by_path, hc]
  · simp [download_file_by_path]

/-- C2 witness: the error-mapping theorem instantiated at file
`"report.txt"`, folder `"Reports"`, non-404 upstream status 503. -/
theorem c2_download_error_mapping_witness :
    (MainBkp.download_file_by_path "D" (some "Reports") "report.txt" "tok"
        (fun _ => ContentResult.statusError 503 "boom")).1 =
      .error ⟨500, "Error al acceder a Graph: " ++ "boom"⟩ :=
  (c2_download_error_mapping "D" "report.txt" "tok" "boom" (some "Reports") 503
    (by decide)).2.1

/-- C3: when the token exchange fails at the HTTP level, `get_file` responds
502 with the upstream detail and its outbound-call trace holds only the
token call — the content fetch is never attempted; when the HTTP exchange
succeeds but the response has no (or an empty) `access_token` field,
`acquire_access_token` yields the 500 "returned no token" error, which
`get_file` returns with, again, no fetch attempted. -/
theorem c3_token_exchange_errors (req : FileRequest) (drive d : String)
    (fetch : String → ContentResult) :
    MainBkp.acquire_access_token (.httpError d) =
      .error ⟨502, "Failed to obtain access token: " ++ d⟩ ∧
    MainBkp.acquire_access_token (.success none) =
      .error ⟨500, "Authentication service returned no access token"⟩ ∧
    MainBkp.acquire_access_token (.success (some "")) =
      .error ⟨500, "Authentication service returned no access token"⟩ ∧
    MainBkp.get_file req drive ⟨.httpError d, fetch⟩ =
      (.error ⟨502, "Failed to obtain access token: " ++ d⟩, [CallEvent.tokenCall]) ∧
    MainBkp.get_file req drive ⟨.success none, fetch⟩ =
      (.error ⟨500, "Authentication service returned no access token"⟩,
        [CallEvent.tokenCall]) := by
  refine ⟨rfl, rfl, by simp [acquire_access_token], ?_, ?_⟩
  · simp [get_file, acquire_access_token]
  · simp [get_file, acquire_access_token]

/-- C4 counterexample: a body supplying the empty string for `fileName` is
accepted by the pydantic validation (`fileName: str` has no minimum-length
constraint), contradicting the claim that it is rejected. -/
theorem c4_claim_counterexample :
    MainBkp.validateFileRequest (.str "") .absent ≠ none := by
  simp [validateFileRequest]

/-- C4 amended: the `POST /get_file` body is validated so that `fileName` is
a required string — a body omitting it (or supplying JSON null) is rejected
— but the empty string is accepted like any other string; `folder` is an
optional string defaulting to the empty string. -/
theorem c4_request_validation (s f : String) (fld : JsonField) :
    MainBkp.validateFileRequest .absent fld = none ∧
    MainBkp.validateFileRequest .null fld = none ∧
    MainBkp.validateFileRequest (.str s) .absent = some ⟨s, some ""⟩ ∧
    MainBkp.validateFileRequest (.str s) (.str f) = some ⟨s, some f⟩ := by
  refine ⟨rfl, rfl, rfl, rfl⟩

/-- Helper: every `get_file` invocation records exactly one token
acquisition in its trace. -/
theorem get_file_one_tokenCall (req : FileRequest) (drive : String) (env : ServiceEnv) :
    ((MainBkp.get_file req drive env).2).countP isTokenCall = 1 := by
  unfold get_file
  cases h : acquire_access_token env.tokenResp <;>
    simp [download_file_by_path, isTokenCall]

/-- C5: each `POST /get_file` request performs its own token acquisition
before its content fetch — the trace is either just the token call (token
acquisition failed, no fetch), or the token call followed by one fetch call
whose bearer token is exactly the token obtained by that request's own
acquisition; and across any sequence of requests the combined trace holds
one token acquisition per request, so no token is cached or reused. -/
theorem c5_fresh_token_per_request (req : FileRequest) (drive : String) (env : ServiceEnv)
    (l : List (FileRequest × String × ServiceEnv)) :
    (((MainBkp.get_file req drive env).2 = [CallEvent.tokenCall] ∧
        ∃ e, acquire_access_token env.tokenResp = .error e) ∨
      (∃ t u, (MainBkp.get_file req drive env).2 =
          [CallEvent.tokenCall, CallEvent.fetchCall t u] ∧
        acquire_access_token env.tokenResp = .ok t)) ∧
    (serveTrace l).countP isTokenCall = l.length := by
  constructor
  · cases h : acquire_access_token env.tokenResp with
    | error e => exact Or.inl ⟨by simp [get_file, h], e, rfl⟩
    | ok t =>
      refine Or.inr ⟨t,
        graph_content_url drive (encode_path (build_path req.folder req.fileName)), ?_, rfl⟩
      simp [get_file, h, download_file_by_path]
  · induction l with
    | nil => simp [serveTrace]
    | cons x xs ih =>
      have hx := get_file_one_tokenCall x.1 x.2.1 x.2.2
      simp [serveTrace, List.countP_append] at ih ⊢
      omega

/-- C6: when token acquisition, site resolution and drive resolution all
succeed, `main` attempts them in that order, prints exactly the two stdout
lines `SITE_ID=<site>` then `DRIVE_ID=<drive>`, prints nothing to stderr,
and returns exit status 0. -/
theorem c6_discovery_success (tokenR : TokenResp) (siteR : String → SiteResp)
    (drivesR : String → DrivesResp) (t s d : String)
    (ht : Discovery.acquire_token tokenR = .ok t)
    (hs : Discovery.get_site_id (siteR t) = .ok s)
    (hd : Discovery.get_default_drive_id (drivesR s) = .ok d) :
    Discovery.main tokenR siteR drivesR =
      ⟨0, ["SITE_ID=" ++ s, "DRIVE_ID=" ++ d], [],
        [Stage.tokenStage, Stage.siteStage, Stage.driveStage]⟩ := by
  simp [Discovery.main, ht, hs, hd]

/-- C6 witness: a fully successful concrete run printing `SITE_ID=S1` and
`DRIVE_ID=D1` with exit status 0. -/
theorem c6_discovery_success_witness :
    Discovery.main (.okJson (some "T")) (fun _ => SiteResp.okJson (some "S1"))
        (fun _ => DrivesResp.okJson [⟨"D1"⟩]) =
      ⟨0, ["SITE_ID=" ++ "S1", "DRIVE_ID=" ++ "D1"], [],
        [Stage.tokenStage, Stage.siteStage, Stage.driveStage]⟩ :=
  c6_discovery_success (.okJson (some "T")) (fun _ => SiteResp.okJson (some "S1"))
    (fun _ => DrivesResp.okJson [⟨"D1"⟩]) "T" "S1" "D1" rfl rfl rfl

/-- C7: a failure at any stage of `main` yields exit status 1, a single
stderr line carrying that stage's prefix (`Error acquiring token:`,
`Error obtaining site ID:`, `Error obtaining drive ID:`), an empty stdout
(no SITE_ID or DRIVE_ID line), and no later stage attempted. -/
theorem c7_discovery_failure (tokenR : TokenResp) (siteR : String → SiteResp)
    (drivesR : String → DrivesResp) (t s e : String) :
    (Discovery.acquire_token tokenR = .error e →
      Discovery.main tokenR siteR drivesR =
        ⟨1, [], ["Error acquiring token: " ++ e], [Stage.tokenStage]⟩) ∧
    (Discovery.acquire_token tokenR = .ok t → Discovery.get_site_id (siteR t) = .error e →
      Discovery.main tokenR siteR drivesR =
        ⟨1, [], ["Error obtaining site ID: " ++ e], [Stage.tokenStage, Stage.siteStage]⟩) ∧
    (Discovery.acquire_token tokenR = .ok t → Discovery.get_site_id (siteR t) = .ok s →
      Discovery.get_default_drive_id (drivesR s) = .error e →
      Discovery.main tokenR siteR drivesR =
        ⟨1, [], ["Error obtaining drive ID: " ++ e],
          [Stage.tokenStage, Stage.siteStage, Stage.driveStage]⟩) := by
  refine ⟨fun ht => ?_, fun ht hs => ?_, fun ht hs hd => ?_⟩
  · simp [Discovery.main, ht]
  · simp [Discovery.main, ht, hs]
  · simp [Discovery.main, ht, hs, hd]

/-- C7 witness: a concrete run whose token endpoint fails exits with status
1, one stderr line prefixed `Error acquiring token:`, empty stdout, and only
the token stage attempted. -/
theorem c7_discovery_failure_witness :
    Discovery.main (.httpFail "x") (fun _ => SiteResp.okJson (some "S1"))
        (fun _ => DrivesResp.okJson [⟨"D1"⟩]) =
      ⟨1, [], ["Error acquiring token: " ++ ("Failed to obtain token: " ++ "x")],
        [Stage.tokenStage]⟩ :=
  (c7_discovery_failure (.httpFail "x") (fun _ => SiteResp.okJson (some "S1"))
    (fun _ => DrivesResp.okJson [⟨"D1"⟩]) "T" "S1"
    ("Failed to obtain token: " ++ "x")).1 rfl

/-- C8: `get_default_drive_id` returns the id of the first drive of the
returned collection, whatever drives follow, and fails with the Lookup
error `The specified site has no drives` on an empty collection. -/
theorem c8_first_drive_selected (d : Drive) (rest : List Drive) :
    Discovery.get_default_drive_id (.okJson (d :: rest)) = .ok d.id ∧
    Discovery.get_default_drive_id (.okJson []) =
      .error "The specified site has no drives" :=
  ⟨rfl, rfl⟩

/-- Helper: a variable that is absent from the environment, or present but
empty, makes `get_env_variable` fail with the error naming that variable. -/
theorem get_env_variable_missing (env : String → Option String) (name : String)
    (h : env name = none ∨ env name = some "") :
    MainBkp.get_env_variable env name =
      .error ("Missing required environment variable: " ++ name) := by
  cases h with
  | inl h => simp [get_env_variable, h]
  | inr h => simp [get_env_variable, h]

/-- C9: for each of the five required environment variables in source order
(TENANT_ID, CLIENT_ID, CLIENT_SECRET, SITE_ID, DRIVE_ID), if that variable
is absent (and the ones checked before it are present and non-empty),
startup fails with the configuration error naming exactly that variable. -/
theorem c9_missing_env_fatal (env : String → Option String) (tv cv sv siv : String) :
    (env "TENANT_ID" = none →
      MainBkp.loadConfig env =
        .error ("Missing required environment variable: " ++ "TENANT_ID")) ∧
    (env "TENANT_ID" = some tv → tv ≠ "" → env "CLIENT_ID" = none →
      MainBkp.loadConfig env =
        .error ("Missing required environment variable: " ++ "CLIENT_ID")) ∧
    (env "TENANT_ID" = some tv → tv ≠ "" → env "CLIENT_ID" = some cv → cv ≠ "" →
      env "CLIENT_SECRET" = none →
      MainBkp.loadConfig env =
        .error ("Missing required environment variable: " ++ "CLIENT_SECRET")) ∧
    (env "TENANT_ID" = some tv → tv ≠ "" → env "CLIENT_ID" = some cv → cv ≠ "" →
      env "CLIENT_SECRET" = some sv → sv ≠ "" → env "SITE_ID" = none →
      MainBkp.loadConfig env =
        .error ("Missing required environment variable: " ++ "SITE_ID")) ∧
    (env "TENANT_ID" = some tv → tv ≠ "" → env "CLIENT_ID" = some cv → cv ≠ "" →
      env "CLIENT_SECRET" = some sv → sv ≠ "" → env "SITE_ID" = some siv → siv ≠ "" →
      env "DRIVE_ID" = none →
      MainBkp.loadConfig env =
        .error ("Missing required environment variable: " ++ "DRIVE_ID")) := by
  refine ⟨fun h1 => ?_, fun h1 h1n h2 => ?_, fun h1 h1n h2 h2n h3 => ?_,
    fun h1 h1n h2 h2n h3 h3n h4 => ?_, fun h1 h1n h2 h2n h3 h3n h4 h4n h5 => ?_⟩ <;>
    simp_all [loadConfig, get_env_variable]

/-- C9 witness: with TENANT_ID and CLIENT_ID set and CLIENT_SECRET absent,
startup fails naming exactly CLIENT_SECRET. -/
theorem c9_missing_env_fatal_witness :
    MainBkp.loadConfig
        (fun n => if n = "TENANT_ID" then some "t"
          else if n = "CLIENT_ID" then some "c" else none) =
      .error ("Missing required environment variable: " ++ "CLIENT_SECRET") :=
  (c9_missing_env_fatal
    (fun n => if n = "TENANT_ID" then some "t"
      else if n = "CLIENT_ID" then some "c" else none)
    "t" "c" "s" "si").2.2.1 rfl (by decide) rfl (by decide) rfl

/-- C10: a required variable that is present in the environment but equal to
the empty string behaves exactly like an absent one — `get_env_variable`
fails with the same error naming the variable, so startup aborts with the
configuration error naming that variable (shown for each of the five
required variables, the earlier ones being present and non-empty). -/
theorem c10_empty_env_like_absent (env : String → Option String)
    (name tv cv sv siv : String) :
    (env name = some "" →
      MainBkp.get_env_variable env name =
        .error ("Missing required environment variable: " ++ name)) ∧
    (env "TENANT_ID" = some "" →
      MainBkp.loadConfig env =
        .error ("Missing required environment variable: " ++ "TENANT_ID")) ∧
    (env "TENANT_ID" = some tv → tv ≠ "" → env "CLIENT_ID" = some "" →
      MainBkp.loadConfig env =
        .error ("Missing required environment variable: " ++ "CLIENT_ID")) ∧
    (env "TENANT_ID" = some tv → tv ≠ "" → env "CLIENT_ID" = some cv → cv ≠ "" →
      env "CLIENT_SECRET" = some "" →
      MainBkp.loadConfig env =
        .error ("Missing required environment variable: " ++ "CLIENT_SECRET")) ∧
    (env "TENANT_ID" = some tv → tv ≠ "" → env "CLIENT_ID" = some cv → cv ≠ "" →
      env "CLIENT_SECRET" = some sv → sv ≠ "" → env "SITE_ID" = some "" →
      MainBkp.loadConfig env =
        .error ("Missing required environment variable: " ++ "SITE_ID")) ∧
    (env "TENANT_ID" = some tv → tv ≠ "" → env "CLIENT_ID" = some cv → cv ≠ "" →
      env "CLIENT_SECRET" = some sv → sv ≠ "" → env "SITE_ID" = some siv → siv ≠ "" →
      env "DRIVE_ID" = some "" →
      MainBkp.loadConfig env =
        .error ("Missing required environment variable: " ++ "DRIVE_ID")) := by
  refine ⟨fun h => get_env_variable_missing env name (Or.inr h),
    fun h1 => ?_, fun h1 h1n h2 => ?_, fun h1 h1n h2 h2n h3 => ?_,
    fun h1 h1n h2 h2n h3 h3n h4 => ?_, fun h1 h1n h2 h2n h3 h3n h4 h4n h5 => ?_⟩ <;>
    simp_all [loadConfig, get_env_variable]

/-- C10 witness: an environment where every variable is set to the empty
string fails startup naming TENANT_ID, exactly as if it were absent. -/
theorem c10_empty_env_like_absent_witness :
    MainBkp.loadConfig (fun _ => some "") =
      .error ("Missing required environment variable: " ++ "TENANT_ID") :=
  (c10_empty_env_like_absent (fun _ => some "") "X" "t" "c" "s" "si").2.1 rfl

end Claims
